import Mathlib

/-!
Verification development for the SFWA compliance harness
(src/harness/sfwa_harness.py).

The Python source is shallowly embedded here.  External effects are
modelled as explicit inputs:
  * the lxml HTML parse of the document text is an input of type
    Except String Doc (error = the parser raised, carrying its message);
  * the Node.js version probe, the subprocess launch and the JSON parse
    of the subprocess standard output are inputs of check_js;
  * XPath evaluation of the interpolated query strings built by
    check_html is embedded by xpathCountAttrEq, which returns the
    count on a plain attribute name and a single-quote-free value and
    reports an XPath compilation error otherwise.  This is a
    conservative region boundary: a value containing a single quote
    usually breaks the quoted string literal, though an
    injection-shaped value can still form a well-formed query; the
    theorems below stay inside the exact region, by hypothesizing
    quote-free values on the positive side and by using concrete
    quoted inputs that genuinely fail to compile on the negative
    side.  The Except layer on check_html models Python exceptions
    escaping the function, since its try block guards only document
    parsing.
-/

deriving instance DecidableEq for Except

namespace SFWA

/-- Single-quote character (code point 39), built from its code point. -/
def sqChar : Char := Char.ofNat 39

/-- Single-quote as a one-character string. -/
def sq : String := String.singleton sqChar

/-- ASCII lowercasing of one character: embeds the XPath
translate(@name, ABCDEFGHIJKLMNOPQRSTUVWXYZ, abcdefghijklmnopqrstuvwxyz)
step used by check_html for the viewport selector, which maps the
letters A-Z to a-z and leaves every other character unchanged. -/
def asciiLowerChar (c : Char) : Char :=
  if 65 ≤ c.toNat ∧ c.toNat ≤ 90 then Char.ofNat (c.toNat + 32) else c

/-- ASCII lowercasing of a string, character by character (written over
the character list so it evaluates by structural recursion). -/
def asciiLower (s : String) : String := String.mk (s.toList.map asciiLowerChar)

/-- Whitespace in the sense of str.strip (the ASCII whitespace
characters; Python additionally strips some rare non-ASCII whitespace,
which no datum of this development contains). -/
def pySpace (c : Char) : Bool :=
  c.toNat = 32 || c.toNat = 9 || c.toNat = 10 || c.toNat = 13 || c.toNat = 11 || c.toNat = 12

/-- Embeds str.strip: remove leading and trailing whitespace. -/
def pyStrip (s : String) : String :=
  String.mk (((s.toList.dropWhile pySpace).reverse.dropWhile pySpace).reverse)

/-- Whether a string holds a given character (structural form of
str membership). -/
def strHasChar (s : String) (c : Char) : Bool := s.toList.contains c

/-- Embeds the slice s[:4000] of Python, which slices by code point. -/
def pyTake (s : String) (n : Nat) : String := String.mk (s.toList.take n)

/-- An element of the parsed document tree: a tag name and its
attributes (lxml exposes attributes as a mapping, so names are unique
and attrLookup takes the first binding). -/
structure Element where
  tag : String
  attrs : List (String × String)
deriving DecidableEq, Repr

/-- A parsed document, flattened to the list of all elements of the
tree in document order.  The XPath queries issued by check_html only
ever count matching elements anywhere in the tree, so this flat view
is sufficient and faithful. -/
abbrev Doc := List Element

/-- First value bound to an attribute name, if any. -/
def attrLookup : List (String × String) → String → Option String
  | [], _ => none
  | (k, v) :: rest, n => if k = n then some v else attrLookup rest n

/-- One entry of html.requires.dataAttributes: da.get("name") may be
absent (none) and da.get("values") or [] collapses an absent or null
list to the empty list. -/
structure DataAttrEntry where
  name : Option String
  values : List String
deriving DecidableEq, Repr

/-- The html.requires block of the spec.  In the source each field is
read with req.get(...) or [], so an absent field is the empty list. -/
structure SpecRequires where
  ids : List String
  selectors : List String
  dataAttributes : List DataAttrEntry
deriving DecidableEq, Repr

/-- The spec JSON object.  The requires field models
(spec.get("html") or \x7b\x7d).get("requires") or \x7b\x7d with the
absent levels collapsed to an empty requires block. -/
structure Spec where
  abi : Option String
  contractId : Option String
  requires : SpecRequires
deriving DecidableEq, Repr

/-- First character of an XPath name (conservative ASCII approximation
of the XPath NCName grammar). -/
def xpathNameStart (c : Char) : Bool := c.isAlpha || c = Char.ofNat 95

/-- Subsequent character of an XPath name (conservative ASCII
approximation: letters, digits, hyphen, underscore, dot). -/
def xpathNameChar (c : Char) : Bool :=
  c.isAlphanum || c = Char.ofNat 45 || c = Char.ofNat 95 || c = Char.ofNat 46

/-- Whether a string is a syntactically valid XPath attribute name, so
that interpolating it after the at-sign in an XPath query keeps the
query well formed.  Conservative approximation of the XPath grammar. -/
def validXPathName (s : String) : Bool :=
  match s.toList with
  | [] => false
  | c :: cs => xpathNameStart c && cs.all xpathNameChar

/-- Number of elements carrying attribute name with exactly value:
the count the query //*[@name=(value)] returns when well formed. -/
def countAttrEq (doc : Doc) (name value : String) : Nat :=
  (doc.filter (fun e => attrLookup e.attrs name = some value)).length

/-- Embeds _xpath_count(doc, f-string of //*[@name=(single-quoted
value)]).  The f-string interpolation is unescaped; on a plain XPath
attribute name and a single-quote-free value the query is well formed
and the count is returned.  The error case models lxml raising
XPathEvalError on an ill-formed query.  The boundary is conservative:
a single quote inside the value usually breaks the string literal
(as at every quoted input used below), but an injection-shaped value
can still form a valid query in the real code, so only the
quote-free region and concretely ill-formed inputs are relied on. -/
def xpathCountAttrEq (doc : Doc) (name value : String) : Except String Nat :=
  if validXPathName name && !(strHasChar value sqChar) then
    Except.ok (countAttrEq doc name value)
  else
    Except.error ("Invalid expression")

/-- Number of elements with the given tag name: the count of //tag. -/
def countTag (doc : Doc) (t : String) : Nat :=
  (doc.filter (fun e => e.tag = t)).length

/-- Whether an element is a meta element carrying a charset attribute
with any value: the test of //meta[@charset]. -/
def hasMetaCharset (e : Element) : Bool :=
  e.tag = ("meta") && (attrLookup e.attrs ("charset")).isSome

/-- Count of //meta[@charset]. -/
def countMetaCharset (doc : Doc) : Nat := (doc.filter hasMetaCharset).length

/-- Whether an element is a meta element whose name attribute value,
ASCII-lowercased, equals viewport: the test of
//meta[translate(@name, upper, lower)=(viewport)]. -/
def isViewportMeta (e : Element) : Bool :=
  e.tag = ("meta") &&
    (match attrLookup e.attrs ("name") with
     | some v => asciiLower v = ("viewport")
     | none => false)

/-- Count of the viewport meta query. -/
def countMetaViewport (doc : Doc) : Nat := (doc.filter isViewportMeta).length

/-- Structured diagnostics of the requiredIds detail record. -/
structure IdsDetail where
  count : Nat
  missing : List String
  duplicates : List (String × Nat)
deriving DecidableEq, Repr

/-- Structured diagnostics of the requiredSelectors detail record. -/
structure SelDetail where
  count : Nat
  missing : List String
  unsupported : List String
deriving DecidableEq, Repr

/-- Structured diagnostics of the dataAttributes detail record. -/
structure DaDetail where
  enforced : List String
  missing : List String
deriving DecidableEq, Repr

/-- The details mapping of a CheckResult.  emptyD is the empty dict;
htmlD is the three-key dict built by check_html; jsonD is a dict of
string keys and values as produced by check_js (values of the external
payload details abstracted to strings). -/
inductive Details where
  | emptyD
  | htmlD (ids : IdsDetail) (sels : SelDetail) (das : DaDetail)
  | jsonD (kvs : List (String × String))
deriving DecidableEq, Repr

/-- The CheckResult dataclass of the source. -/
structure CheckResult where
  ok : Bool
  errors : List String
  details : Details
deriving DecidableEq, Repr

/-- The required-ids loop of check_html: for each id, count
//*[@id=(id)] occurrences; zero goes to the missing list, more than
one goes to the duplicates list with its count.  An XPath error
propagates as an exception. -/
def idsScan (doc : Doc) : List String → Except String (List String × List (String × Nat))
  | [] => Except.ok ([], [])
  | idv :: rest =>
    match xpathCountAttrEq doc ("id") idv with
    | Except.error e => Except.error e
    | Except.ok n =>
      match idsScan doc rest with
      | Except.error e => Except.error e
      | Except.ok p =>
        if n = 0 then Except.ok (idv :: p.1, p.2)
        else if n > 1 then Except.ok (p.1, (idv, n) :: p.2)
        else Except.ok (p.1, p.2)

/-- The single-quoted spelling of the viewport selector. -/
def viewportSingle : String := ("meta[name=") ++ sq ++ ("viewport") ++ sq ++ ("]")

/-- The double-quoted spelling of the viewport selector. -/
def viewportDouble : String := "meta[name=\"viewport\"]"

/-- The selector loop of check_html: each selector is stripped, then
matched against the fixed vocabulary; unmatched selectors are recorded
as unsupported, recognized ones whose query count is zero are recorded
as missing (the viewport selector under its single-quoted spelling). -/
def selScan (doc : Doc) : List String → List String × List String
  | [] => ([], [])
  | sel :: rest =>
    let s := pyStrip sel
    let p := selScan doc rest
    if s = ("title") then
      (if countTag doc ("title") = 0 then s :: p.1 else p.1, p.2)
    else if s = ("meta[charset]") then
      (if countMetaCharset doc = 0 then s :: p.1 else p.1, p.2)
    else if s = viewportSingle ∨ s = viewportDouble then
      (if countMetaViewport doc = 0 then viewportSingle :: p.1 else p.1, p.2)
    else (p.1, s :: p.2)

/-- The inner values loop of the data-attribute check: each value is
queried via //*[@name=(value)]; a zero count records name=value as
missing, a positive count records it as enforced.  An XPath error
propagates as an exception, discarding the accumulated lists. -/
def daValues (doc : Doc) (n : String) : List String → Except String (List String × List String)
  | [] => Except.ok ([], [])
  | v :: rest =>
    match xpathCountAttrEq doc n v with
    | Except.error e => Except.error e
    | Except.ok k =>
      match daValues doc n rest with
      | Except.error e => Except.error e
      | Except.ok p =>
        if k = 0 then Except.ok (p.1, (n ++ ("=") ++ v) :: p.2)
        else Except.ok ((n ++ ("=") ++ v) :: p.1, p.2)

/-- The outer data-attribute loop of check_html: an entry with an
absent or empty name, or an empty values list, is skipped; otherwise
its values are all checked and the per-entry results concatenated in
order. -/
def daScan (doc : Doc) : List DataAttrEntry → Except String (List String × List String)
  | [] => Except.ok ([], [])
  | da :: rest =>
    match da.name with
    | none => daScan doc rest
    | some n =>
      if n = "" ∨ da.values = [] then daScan doc rest
      else
        match daValues doc n da.values with
        | Except.error e => Except.error e
        | Except.ok p1 =>
          match daScan doc rest with
          | Except.error e => Except.error e
          | Except.ok p2 => Except.ok (p1.1 ++ p2.1, p1.2 ++ p2.2)

/-- Comma-space join, as str.join in the source. -/
def joinComma (l : List String) : String := String.intercalate (", ") l

/-- Formatting of one duplicate id with its count. -/
def dupFmt (p : String × Nat) : String :=
  p.1 ++ (" (count=") ++ toString p.2 ++ (")")

/-- The aggregate error line for missing ids, when any. -/
def idMissingLine (missing : List String) : List String :=
  if missing = [] then [] else [("Missing required id(s): ") ++ joinComma missing]

/-- The aggregate error line for duplicate ids, when any. -/
def dupLine (dupes : List (String × Nat)) : List String :=
  if dupes = [] then []
  else [("Duplicate id(s) found: ") ++ joinComma (dupes.map dupFmt)]

/-- The aggregate error line for missing selectors, when any. -/
def selMissingLine (m : List String) : List String :=
  if m = [] then [] else [("Missing required selector(s): ") ++ joinComma m]

/-- The aggregate error line for missing data-attribute pairs, when any. -/
def daMissingLine (m : List String) : List String :=
  if m = [] then []
  else [("Missing required data-attribute instance(s): ") ++ joinComma m]

/-- All error lines of check_html, in emission order. -/
def allErrs (idM : List String) (dup : List (String × Nat)) (selM daM : List String) : List String :=
  idMissingLine idM ++ dupLine dup ++ selMissingLine selM ++ daMissingLine daM

/-- The structural checker check_html.  The parsed argument is the
outcome of lxml_html.fromstring on the document text; its error case
returns the single-error failing result with empty details.  The outer
Except layer models an exception escaping check_html (only XPath
evaluation can raise outside the guarded parse). -/
def check_html (spec : Spec) (parsed : Except String Doc) : Except String CheckResult :=
  match parsed with
  | Except.error e => Except.ok ⟨false, [("HTML parse error: ") ++ e], Details.emptyD⟩
  | Except.ok doc =>
    match idsScan doc spec.requires.ids with
    | Except.error e => Except.error e
    | Except.ok idp =>
      let selp := selScan doc spec.requires.selectors
      match daScan doc spec.requires.dataAttributes with
      | Except.error e => Except.error e
      | Except.ok dap =>
        let errs := allErrs idp.1 idp.2 selp.1 dap.2
        Except.ok ⟨errs.isEmpty, errs,
          Details.htmlD ⟨spec.requires.ids.length, idp.1, idp.2⟩
            ⟨spec.requires.selectors.length, selp.1, selp.2⟩
            ⟨dap.1, dap.2⟩⟩

/-- Outcome of the completed subprocess: exit code and captured
standard output and standard error, as subprocess.run returns them. -/
structure ProcResult where
  returncode : Int
  stdout : String
  stderr : String
deriving DecidableEq, Repr

/-- The JSON object parsed from the subprocess standard output,
restricted to the documented payload shape: each field is absent
(none) or present.  A present ok field carries its boolean truthiness;
a present errors field carries a list of strings; a present details
field carries a string-to-string mapping (values abstracted). -/
structure Payload where
  ok : Option Bool
  errors : Option (List String)
  details : Option (List (String × String))
deriving DecidableEq, Repr

/-- Dict assignment d[k] = v on an insertion-ordered mapping: replaces
the binding in place when the key exists, appends otherwise. -/
def setKey : List (String × String) → String → String → List (String × String)
  | [], k, v => [(k, v)]
  | (k0, v0) :: rest, k, v =>
    if k0 = k then (k, v) :: rest else (k0, v0) :: setKey rest k v

/-- The errors list check_js takes from a parsed payload: the line
payload.get("errors") or ([] if ok else [generic]) with Python
falsiness, so a present-but-empty list triggers the default exactly
like an absent field, and the default is empty on a truthy ok and the
single synthesized generic error on a falsy ok. -/
def payloadErrors (payload : Payload) : List String :=
  match payload.errors with
  | some l =>
    if l = [] then (if payload.ok.getD false then [] else [("JS compliance failed.")]) else l
  | none => if payload.ok.getD false then [] else [("JS compliance failed.")]

/-- The details mapping check_js builds from a parsed payload:
payload.get("details") or \x7b\x7d, with the stripped standard error
added under the stderr key when nonblank. -/
def payloadDetails (payload : Payload) (stderrText : String) : List (String × String) :=
  if pyStrip stderrText = "" then payload.details.getD []
  else setKey (payload.details.getD []) ("stderr") (pyStrip stderrText)

/-- The bridge check_js.  External effects are inputs: probe is the
node version probe (error = the probe raised), launch is the
subprocess launch (error = subprocess.run raised), parse is the
outcome json.loads would give on the captured standard output.  The
branch order follows the source: probe, launch, sentinel exit code 2,
blank output, payload parse, then the payload fields with Python
falsiness (an absent ok is false; an absent or empty errors list
triggers the synthesized error exactly when ok is false). -/
def check_js (probe : Except String Unit) (launch : Except String ProcResult)
    (parse : Except String Payload) : CheckResult :=
  match probe with
  | Except.error e => ⟨false, [("Node.js not available: ") ++ e], Details.jsonD []⟩
  | Except.ok _ =>
    match launch with
    | Except.error e => ⟨false, [("Failed to execute JS harness: ") ++ e], Details.jsonD []⟩
    | Except.ok p =>
      if p.returncode = 2 then
        ⟨false, [("JS harness internal error:\n") ++ (if p.stderr = "" then p.stdout else p.stderr)],
          Details.jsonD []⟩
      else if pyStrip p.stdout = "" then
        ⟨false, [("JS harness produced no output."), pyStrip p.stderr], Details.jsonD []⟩
      else
        match parse with
        | Except.error e =>
          ⟨false, [("JS harness output was not valid JSON: ") ++ e, pyTake p.stdout 4000],
            Details.jsonD [(("stderr"), p.stderr)]⟩
        | Except.ok payload =>
          ⟨payload.ok.getD false, payloadErrors payload,
            Details.jsonD (payloadDetails payload p.stderr)⟩

/-- The mode argument of the command line: html, js or all. -/
inductive Mode
  | htmlM
  | jsM
  | allM
deriving DecidableEq, Repr

/-- The report object built by main: abi, contractId and the per-kind
results actually produced (source locations omitted, being echoes of
the input paths). -/
structure Report where
  abi : Option String
  contractId : Option String
  htmlRes : Option CheckResult
  jsRes : Option CheckResult
deriving DecidableEq, Repr

/-- Outcome of main: a harness-level error printed to standard error
with exit code 2, or a finished run with its report and exit code. -/
inductive MainOutcome where
  | harnessError (msg : String)
  | finished (report : Report) (exitCode : Nat)
deriving DecidableEq, Repr

/-- Python string interpolation of spec.get("abi"): an absent field
prints as None. -/
def optAbiStr : Option String → String
  | none => "None"
  | some s => s

/-- The supported contract dialect identifier. -/
def supportedAbi : String := "sfwa-abi-1"

/-- The unsupported-abi error message printed by main. -/
def abiErrorMsg (abi : Option String) : String :=
  ("Error: unsupported abi ") ++ sq ++ optAbiStr abi ++ sq ++
    (". Expected ") ++ sq ++ supportedAbi ++ sq ++ (".")

/-- The orchestrator main, with its external effects as inputs:
specRead is the outcome of reading and JSON-parsing the spec file,
htmlRead is the outcome of reading the document file, carrying the
outcome lxml parsing of that text would give, and jsResult is the
result check_js would return for the configured paths (main passes
paths; the bridge result is a value here, and the abi gate returning
before it is consulted is what not invoking the bridge means in this
pure embedding).  The outer Except layer models an exception escaping
main uncaught (only check_html can raise one, via XPath). -/
def mainRun (specRead : Except String Spec) (htmlRead : Except String (Except String Doc))
    (jsResult : CheckResult) (mode : Mode) : Except String MainOutcome :=
  match specRead with
  | Except.error e => Except.ok (MainOutcome.harnessError (("Error: cannot read spec: ") ++ e))
  | Except.ok spec =>
    if spec.abi ≠ some supportedAbi then
      Except.ok (MainOutcome.harnessError (abiErrorMsg spec.abi))
    else
      match htmlRead with
      | Except.error e =>
        Except.ok (MainOutcome.harnessError (("Error: cannot read HTML file: ") ++ e))
      | Except.ok parsed =>
        match (if mode = Mode.htmlM ∨ mode = Mode.allM
               then (check_html spec parsed).map some
               else Except.ok none) with
        | Except.error e => Except.error e
        | Except.ok hOpt =>
          let jOpt := if mode = Mode.jsM ∨ mode = Mode.allM then some jsResult else none
          let overall := (hOpt.all fun r => r.ok) && (jOpt.all fun r => r.ok)
          Except.ok (MainOutcome.finished ⟨spec.abi, spec.contractId, hOpt, jOpt⟩
            (if overall then 0 else 1))

/-- Whether some element of the document is a viewport meta element. -/
def anyViewportMeta (doc : Doc) : Bool := doc.any isViewportMeta

/-- Whether an element of any tag carries a name attribute whose value,
ASCII-lowercased, equals viewport (the tag-blind reading of the
viewport condition, used to compare against the actual semantics). -/
def elemNameViewport (e : Element) : Bool :=
  match attrLookup e.attrs ("name") with
  | some v => asciiLower v = ("viewport")
  | none => false

/-- Whether some element of any tag carries name ~ viewport. -/
def anyNameViewport (doc : Doc) : Bool := doc.any elemNameViewport

/-- A required id containing a single quote. -/
def idq : String := ("a") ++ sq ++ ("b")

/-- A document carrying exactly one element whose id is idq. -/
def docQ : Doc := [⟨("div"), [(("id"), idq)]⟩]

/-- A spec (supported abi) requiring the quoted id idq. -/
def specQ : Spec := ⟨some supportedAbi, none, ⟨[idq], [], []⟩⟩

/-- A data-attribute entry whose required value contains a single quote. -/
def daQ : DataAttrEntry := ⟨some ("data-x"), [("v") ++ sq]⟩

/-- A spec (supported abi) with the quoted data-attribute value. -/
def specQ2 : Spec := ⟨some supportedAbi, none, ⟨[], [], [daQ]⟩⟩

/-- A document satisfying every requirement of specW. -/
def docW : Doc :=
  [⟨("html"), []⟩, ⟨("title"), []⟩, ⟨("meta"), [(("charset"), ("utf-8"))]⟩,
   ⟨("meta"), [(("name"), ("Viewport"))]⟩, ⟨("div"), [(("id"), ("app"))]⟩,
   ⟨("div"), [(("data-view"), ("main"))]⟩]

/-- A spec exercising all three requirement groups plus an unsupported
selector and a skipped data-attribute entry. -/
def specW : Spec :=
  ⟨some supportedAbi, some ("c1"),
    ⟨[("app")], [("title"), ("meta[charset]"), viewportSingle, ("nav .x")],
      [⟨some ("data-view"), [("main")]⟩, ⟨none, [("zz")]⟩]⟩⟩

/-- A spec with no requirements. -/
def specNil : Spec := ⟨some supportedAbi, none, ⟨[], [], []⟩⟩

/-- A spec whose abi is an unsupported dialect. -/
def badSpec : Spec := ⟨some ("sfwa-abi-2"), none, ⟨[], [], []⟩⟩

/-- A trivially passing bridge result, used as an arbitrary value. -/
def jsOkRes : CheckResult := ⟨true, [], Details.jsonD []⟩

/-- Payload with ok false and an errors field present but empty. -/
def payC4 : Payload := ⟨some false, some [], none⟩

/-- Subprocess outcome whose standard output is the JSON text that
parses to payC4. -/
def pC4 : ProcResult := ⟨0, "\x7b\"ok\":false,\"errors\":[]\x7d", ""⟩

/-- Payload with ok true and no errors field. -/
def payW4 : Payload := ⟨some true, none, none⟩

/-- Subprocess outcome whose standard output parses to payW4. -/
def pW4 : ProcResult := ⟨0, "\x7b\"ok\":true\x7d", ""⟩

/-- Subprocess outcome with the sentinel exit code 2. -/
def pSent : ProcResult := ⟨2, ("stdout data"), ("diagnostic text")⟩

/-- Payload with ok false and an errors list holding one empty string. -/
def payC6 : Payload := ⟨some false, some [""], none⟩

/-- Subprocess outcome whose standard output parses to payC6. -/
def pC6 : ProcResult := ⟨0, "\x7b\"ok\":false,\"errors\":[\"\"]\x7d", ""⟩

/-- A document whose only element is a div carrying name viewport. -/
def docV : Doc := [⟨("div"), [(("name"), ("viewport"))]⟩]

/-- A document whose only element is a meta with name VIEWPORT. -/
def docV8 : Doc := [⟨("meta"), [(("name"), ("VIEWPORT"))]⟩]

/-- A spec requiring only the single-quoted viewport selector. -/
def specV : Spec := ⟨none, none, ⟨[], [viewportSingle], []⟩⟩

/-- A data-attribute entry with an absent name. -/
def daNone : DataAttrEntry := ⟨none, [("zz")]⟩

/-- A nonempty string stays nonempty under appending on the right. -/
theorem str_append_ne_empty (s t : String) (h : s ≠ "") : s ++ t ≠ "" := by
  intro he
  have hd : (s ++ t).data = ("" : String).data := by rw [he]
  rw [String.data_append] at hd
  simp at hd
  exact h (String.ext hd.1)

/-- Every CheckResult check_html returns satisfies ok iff errors empty. -/
theorem check_html_ok_iff (spec : Spec) (parsed : Except String Doc) (r : CheckResult)
    (h : check_html spec parsed = Except.ok r) : r.ok = true ↔ r.errors = [] := by
  cases parsed with
  | error e =>
    simp only [check_html, Except.ok.injEq] at h
    subst h
    simp
  | ok doc =>
    simp only [check_html] at h
    split at h
    · exact absurd h (by simp)
    · split at h
      · exact absurd h (by simp)
      · rw [Except.ok.injEq] at h
        subst h
        simp [List.isEmpty_iff]

/-- Every member of the error-line list built by check_html is a
nonempty string. -/
theorem allErrs_mem_ne (idM : List String) (dup : List (String × Nat)) (selM daM : List String) :
    ∀ e ∈ allErrs idM dup selM daM, e ≠ "" := by
  intro e he
  simp only [allErrs, List.mem_append] at he
  rcases he with ((h1 | h2) | h3) | h4
  · rw [idMissingLine] at h1
    split at h1
    · simp at h1
    · rw [List.mem_singleton] at h1
      subst h1
      exact str_append_ne_empty _ _ (by decide)
  · rw [dupLine] at h2
    split at h2
    · simp at h2
    · rw [List.mem_singleton] at h2
      subst h2
      exact str_append_ne_empty _ _ (by decide)
  · rw [selMissingLine] at h3
    split at h3
    · simp at h3
    · rw [List.mem_singleton] at h3
      subst h3
      exact str_append_ne_empty _ _ (by decide)
  · rw [daMissingLine] at h4
    split at h4
    · simp at h4
    · rw [List.mem_singleton] at h4
      subst h4
      exact str_append_ne_empty _ _ (by decide)

/-- Every error string of a CheckResult check_html returns is nonempty. -/
theorem check_html_errors_ne (spec : Spec) (parsed : Except String Doc) (r : CheckResult)
    (h : check_html spec parsed = Except.ok r) : ∀ e ∈ r.errors, e ≠ "" := by
  cases parsed with
  | error e =>
    simp only [check_html, Except.ok.injEq] at h
    subst h
    intro x hx
    rw [List.mem_singleton] at hx
    subst hx
    exact str_append_ne_empty _ _ (by decide)
  | ok doc =>
    simp only [check_html] at h
    split at h
    · exact absurd h (by simp)
    · split at h
      · exact absurd h (by simp)
      · rw [Except.ok.injEq] at h
        subst h
        exact allErrs_mem_ne _ _ _ _

/-- Claim C2: for every spec and every HTML text, the CheckResult
returned by check_html satisfies ok = true if and only if its errors
list is empty. -/
theorem c2_check_html_ok_iff_errors_empty (spec : Spec) (parsed : Except String Doc)
    (r : CheckResult) (h : check_html spec parsed = Except.ok r) :
    r.ok = true ↔ r.errors = [] :=
  check_html_ok_iff spec parsed r h

/-- Witness for C2 at a concrete parse failure. -/
theorem c2_witness :
    (⟨false, [("HTML parse error: ") ++ ("boom")], Details.emptyD⟩ : CheckResult).ok = true ↔
    (⟨false, [("HTML parse error: ") ++ ("boom")], Details.emptyD⟩ : CheckResult).errors = [] :=
  c2_check_html_ok_iff_errors_empty specNil (Except.error ("boom")) _ rfl

/-- Claim C7: on a document parse failure check_html returns a failing
result with exactly one error string and an empty details mapping,
independent of the spec, so none of the three requirement groups is
evaluated. -/
theorem c7_parse_failure_single_error (spec : Spec) (e : String) :
    check_html spec (Except.error e) =
      Except.ok ⟨false, [("HTML parse error: ") ++ e], Details.emptyD⟩ := rfl

/-- Claim C10: check_html is not total once a required id or required
data-attribute value contains a single quote: the interpolated XPath
query fails to compile, and since the try block guards only document
parsing, the exception escapes check_html instead of a CheckResult
being returned, even though the id occurs exactly once. -/
theorem c10_quote_in_spec_raises :
    countAttrEq docQ ("id") idq = 1 ∧
    check_html specQ (Except.ok docQ) = Except.error ("Invalid expression") ∧
    check_html specQ2 (Except.ok docQ) = Except.error ("Invalid expression") := by
  refine ⟨by decide, by decide, by decide⟩

/-- Claim C5: when the subprocess exits with the sentinel code 2,
check_js returns a failing result whose single error message embeds
the diagnostic stream, preferring standard error and falling back to
standard output, and the result does not depend on the parse of
standard output. -/
theorem c5_sentinel_exit_embeds_diagnostics (p : ProcResult) (parse : Except String Payload)
    (h : p.returncode = 2) :
    check_js (Except.ok ()) (Except.ok p) parse =
      ⟨false, [("JS harness internal error:\n") ++ (if p.stderr = "" then p.stdout else p.stderr)],
        Details.jsonD []⟩ := by
  simp only [check_js, h]
  simp

/-- Witness for C5 at a concrete sentinel outcome. -/
theorem c5_witness :
    check_js (Except.ok ()) (Except.ok pSent) (Except.error ("unused")) =
      ⟨false, [("JS harness internal error:\n") ++ ("diagnostic text")], Details.jsonD []⟩ :=
  c5_sentinel_exit_embeds_diagnostics pSent (Except.error ("unused")) rfl

/-- Every failing result of check_js carries a nonempty error string,
provided a bridge-reported nonempty errors list itself holds one. -/
theorem check_js_false_has_error (probe : Except String Unit) (launch : Except String ProcResult)
    (parse : Except String Payload)
    (hpay : ∀ pay l, parse = Except.ok pay → pay.errors = some l → l ≠ [] →
      ∃ e, e ∈ l ∧ e ≠ "")
    (hok : (check_js probe launch parse).ok = false) :
    ∃ e, e ∈ (check_js probe launch parse).errors ∧ e ≠ "" := by
  cases probe with
  | error e =>
    refine ⟨("Node.js not available: ") ++ e, ?_, str_append_ne_empty _ _ (by decide)⟩
    simp [check_js]
  | ok u =>
    cases launch with
    | error e =>
      refine ⟨("Failed to execute JS harness: ") ++ e, ?_, str_append_ne_empty _ _ (by decide)⟩
      simp [check_js]
    | ok p =>
      by_cases h2 : p.returncode = 2
      · refine ⟨("JS harness internal error:\n") ++ (if p.stderr = "" then p.stdout else p.stderr),
          ?_, str_append_ne_empty _ _ (by decide)⟩
        simp [check_js, h2]
      · by_cases hb : pyStrip p.stdout = ""
        · refine ⟨("JS harness produced no output."), ?_, by decide⟩
          simp [check_js, h2, hb]
        · cases parse with
          | error e =>
            refine ⟨("JS harness output was not valid JSON: ") ++ e, ?_,
              str_append_ne_empty _ _ (by decide)⟩
            simp [check_js, h2, hb]
          | ok pay =>
            have hr : check_js (Except.ok u) (Except.ok p) (Except.ok pay) =
                ⟨pay.ok.getD false, payloadErrors pay, Details.jsonD (payloadDetails pay p.stderr)⟩ := by
              simp [check_js, h2, hb]
            rw [hr] at hok
            have hok2 : pay.ok.getD false = false := hok
            rw [hr]
            cases hpe : pay.errors with
            | none =>
              refine ⟨("JS compliance failed."), ?_, by decide⟩
              simp [payloadErrors, hpe, hok2]
            | some l =>
              by_cases hl : l = []
              · refine ⟨("JS compliance failed."), ?_, by decide⟩
                simp [payloadErrors, hpe, hl, hok2]
              · obtain ⟨e, hel, hne⟩ := hpay pay l rfl hpe hl
                refine ⟨e, ?_, hne⟩
                simp [payloadErrors, hpe, hl, hel]

/-- Claim C6 (amended): every harness-generated failure path of both
checkers yields at least one nonempty error string; a bridge-reported
failure does too, provided the external payload does not itself supply
a nonempty errors list made only of empty strings (such a list is
propagated verbatim). -/
theorem c6_failure_paths_explanatory :
    (∀ spec parsed r, check_html spec parsed = Except.ok r → r.ok = false →
      ∃ e, e ∈ r.errors ∧ e ≠ "") ∧
    (∀ probe launch parse,
      (∀ pay l, parse = Except.ok pay → pay.errors = some l → l ≠ [] →
        ∃ e, e ∈ l ∧ e ≠ "") →
      (check_js probe launch parse).ok = false →
      ∃ e, e ∈ (check_js probe launch parse).errors ∧ e ≠ "") := by
  constructor
  · intro spec parsed r h hok
    have hne : r.errors ≠ [] := by
      intro hnil
      have ht := (check_html_ok_iff spec parsed r h).mpr hnil
      rw [ht] at hok
      exact Bool.noConfusion hok
    obtain ⟨e, he⟩ := List.exists_mem_of_ne_nil r.errors hne
    exact ⟨e, he, check_html_errors_ne spec parsed r h e he⟩
  · exact check_js_false_has_error

/-- Witness for C6 at a concrete transport failure. -/
theorem c6_witness :
    ∃ e, e ∈ (check_js (Except.error ("node missing")) (Except.error ("y"))
      (Except.error ("z"))).errors ∧ e ≠ "" :=
  c6_failure_paths_explanatory.2 (Except.error ("node missing")) (Except.error ("y"))
    (Except.error ("z")) (fun pay l hx => by cases hx) (by decide)

/-- Counterexample to C6 as stated: an external payload reporting ok
false with errors made of one empty string is propagated verbatim, so
check_js returns ok false with no nonempty error string. -/
theorem c6_counterexample :
    check_js (Except.ok ()) (Except.ok pC6) (Except.ok payC6) =
      ⟨false, [""], Details.jsonD []⟩ ∧
    ¬ ∃ e, e ∈ (check_js (Except.ok ()) (Except.ok pC6) (Except.ok payC6)).errors ∧ e ≠ "" := by
  refine ⟨by decide, by decide⟩

/-- Claim C4 (amended): on a parsed payload, check_js takes the errors
field verbatim when present and nonempty; when the field is absent or
an empty list, a falsy ok yields exactly the one synthesized generic
error and a truthy ok yields an empty errors list. -/
theorem c4_amended_errors_policy (p : ProcResult) (payload : Payload)
    (h2 : p.returncode ≠ 2) (hout : pyStrip p.stdout ≠ "") :
    (∀ l, payload.errors = some l → l ≠ [] →
      (check_js (Except.ok ()) (Except.ok p) (Except.ok payload)).errors = l) ∧
    ((payload.errors = none ∨ payload.errors = some []) → payload.ok.getD false = false →
      (check_js (Except.ok ()) (Except.ok p) (Except.ok payload)).errors
        = [("JS compliance failed.")]) ∧
    ((payload.errors = none ∨ payload.errors = some []) → payload.ok.getD false = true →
      (check_js (Except.ok ()) (Except.ok p) (Except.ok payload)).errors = []) := by
  have hr : check_js (Except.ok ()) (Except.ok p) (Except.ok payload) =
      ⟨payload.ok.getD false, payloadErrors payload,
        Details.jsonD (payloadDetails payload p.stderr)⟩ := by
    simp [check_js, h2, hout]
  refine ⟨?_, ?_, ?_⟩
  · intro l hl hne
    rw [hr]
    simp [payloadErrors, hl, hne]
  · rintro (hn | hn) hko
    · rw [hr]; simp [payloadErrors, hn, hko]
    · rw [hr]; simp [payloadErrors, hn, hko]
  · rintro (hn | hn) hko
    · rw [hr]; simp [payloadErrors, hn, hko]
    · rw [hr]; simp [payloadErrors, hn, hko]

/-- Witness for C4 at a payload with ok true and no errors field. -/
theorem c4_witness :
    (check_js (Except.ok ()) (Except.ok pW4) (Except.ok payW4)).errors = [] :=
  (c4_amended_errors_policy pW4 payW4 (by decide) (by decide)).2.2 (Or.inl rfl) rfl

/-- Counterexample to C4 as stated: a payload whose errors field is
present but an empty list, with ok false, is not taken verbatim; the
generic error is synthesized instead. -/
theorem c4_counterexample :
    payC4.errors = some [] ∧
    (check_js (Except.ok ()) (Except.ok pC4) (Except.ok payC4)).errors
      = [("JS compliance failed.")] ∧
    ([("JS compliance failed.")] : List String) ≠ [] := by
  refine ⟨rfl, by decide, by decide⟩

/-- Claim C3: when the spec abi is not the supported dialect, main
aborts with the configuration error before either checker runs: the
outcome is the harness error, whatever the document read and parse
outcome, the bridge result and the mode. -/
theorem c3_bad_abi_aborts (s : Spec) (h : s.abi ≠ some supportedAbi)
    (htmlRead : Except String (Except String Doc)) (jsResult : CheckResult) (mode : Mode) :
    mainRun (Except.ok s) htmlRead jsResult mode =
      Except.ok (MainOutcome.harnessError (abiErrorMsg s.abi)) := by
  simp only [mainRun]
  rw [if_pos h]

/-- Witness for C3 at a concrete unsupported abi. -/
theorem c3_witness :
    mainRun (Except.ok badSpec) (Except.error ("no file")) jsOkRes Mode.allM =
      Except.ok (MainOutcome.harnessError (abiErrorMsg (some ("sfwa-abi-2")))) :=
  c3_bad_abi_aborts badSpec (by decide) (Except.error ("no file")) jsOkRes Mode.allM

/-- A quote-free value against a valid attribute name keeps the XPath
query well formed, so the count is returned. -/
theorem xpathCountAttrEq_ok (doc : Doc) (n v : String) (hn : validXPathName n = true)
    (hv : strHasChar v sqChar = false) :
    xpathCountAttrEq doc n v = Except.ok (countAttrEq doc n v) := by
  simp [xpathCountAttrEq, hn, hv]

/-- When every required id is quote-free and occurs exactly once, the
id scan reports neither missing nor duplicate ids. -/
theorem idsScan_clean (doc : Doc) (ids : List String)
    (h : ∀ i ∈ ids, strHasChar i sqChar = false ∧ countAttrEq doc ("id") i = 1) :
    idsScan doc ids = Except.ok ([], []) := by
  induction ids with
  | nil => rfl
  | cons i rest ih =>
    have hq := (h i (by simp)).1
    have hc := (h i (by simp)).2
    have hrest : idsScan doc rest = Except.ok ([], []) := ih (fun j hj => h j (by simp [hj]))
    have hx : xpathCountAttrEq doc ("id") i = Except.ok 1 := by
      rw [xpathCountAttrEq_ok doc ("id") i (by decide) hq, hc]
    simp [idsScan, hx, hrest]

/-- When every recognized selector in the list has its target present,
the selector scan reports no missing selector. -/
theorem selScan_clean (doc : Doc) (sels : List String)
    (h : ∀ s ∈ sels,
      (pyStrip s = ("title") → countTag doc ("title") ≠ 0) ∧
      (pyStrip s = ("meta[charset]") → countMetaCharset doc ≠ 0) ∧
      ((pyStrip s = viewportSingle ∨ pyStrip s = viewportDouble) → countMetaViewport doc ≠ 0)) :
    (selScan doc sels).1 = [] := by
  induction sels with
  | nil => rfl
  | cons sel rest ih =>
    have hrest := ih (fun s hs => h s (by simp [hs]))
    obtain ⟨h1, h2, h3⟩ := h sel (by simp)
    simp only [selScan]
    by_cases e1 : pyStrip sel = ("title")
    · rw [if_pos e1, if_neg (h1 e1)]
      simpa using hrest
    · rw [if_neg e1]
      by_cases e2 : pyStrip sel = ("meta[charset]")
      · rw [if_pos e2, if_neg (h2 e2)]
        simpa using hrest
      · rw [if_neg e2]
        by_cases e3 : pyStrip sel = viewportSingle ∨ pyStrip sel = viewportDouble
        · rw [if_pos e3, if_neg (h3 e3)]
          simpa using hrest
        · rw [if_neg e3]
          simpa using hrest

/-- When every required value of one entry is quote-free and carried
by some element, the values scan reports nothing missing. -/
theorem daValues_clean (doc : Doc) (n : String) (vs : List String)
    (hn : validXPathName n = true)
    (h : ∀ v ∈ vs, strHasChar v sqChar = false ∧ countAttrEq doc n v ≠ 0) :
    ∃ enf, daValues doc n vs = Except.ok (enf, []) := by
  induction vs with
  | nil => exact ⟨[], rfl⟩
  | cons v rest ih =>
    obtain ⟨enf, henf⟩ := ih (fun w hw => h w (by simp [hw]))
    have hv := (h v (by simp)).1
    have hc := (h v (by simp)).2
    refine ⟨(n ++ ("=") ++ v) :: enf, ?_⟩
    simp [daValues, xpathCountAttrEq_ok doc n v hn hv, henf, hc]

/-- When every enforced entry has a valid quote-free name and all its
required values present, the data-attribute scan reports nothing
missing. -/
theorem daScan_clean (doc : Doc) (l : List DataAttrEntry)
    (h : ∀ da ∈ l, ∀ n, da.name = some n → n ≠ "" → da.values ≠ [] →
      validXPathName n = true ∧
        ∀ v ∈ da.values, strHasChar v sqChar = false ∧ countAttrEq doc n v ≠ 0) :
    ∃ enf, daScan doc l = Except.ok (enf, []) := by
  induction l with
  | nil => exact ⟨[], rfl⟩
  | cons da rest ih =>
    obtain ⟨enf2, h2⟩ := ih (fun d hd => h d (by simp [hd]))
    cases hname : da.name with
    | none => exact ⟨enf2, by simp [daScan, hname, h2]⟩
    | some n =>
      by_cases hskip : n = "" ∨ da.values = []
      · refine ⟨enf2, ?_⟩
        simp only [daScan, hname]
        rw [if_pos hskip, h2]
      · rcases not_or.mp hskip with ⟨hn0, hv0⟩
        obtain ⟨hn, hvs⟩ := h da (by simp) n hname hn0 hv0
        obtain ⟨enf1, h1⟩ := daValues_clean doc n da.values hn hvs
        refine ⟨enf1 ++ enf2, ?_⟩
        simp only [daScan, hname]
        rw [if_neg hskip, h1, h2]
        simp

/-- Claim C1 (amended): for every spec and parseable document in which
each required id is single-quote-free and occurs exactly once, each
recognized selector target exists, and each enforced data-attribute
pair has a valid XPath name, a single-quote-free value, and a carrier
element, check_html returns ok true with an empty errors list. -/
theorem c1_satisfied_spec_passes (spec : Spec) (doc : Doc)
    (hids : ∀ i ∈ spec.requires.ids,
      strHasChar i sqChar = false ∧ countAttrEq doc ("id") i = 1)
    (hsels : ∀ s ∈ spec.requires.selectors,
      (pyStrip s = ("title") → countTag doc ("title") ≠ 0) ∧
      (pyStrip s = ("meta[charset]") → countMetaCharset doc ≠ 0) ∧
      ((pyStrip s = viewportSingle ∨ pyStrip s = viewportDouble) → countMetaViewport doc ≠ 0))
    (hdas : ∀ da ∈ spec.requires.dataAttributes, ∀ n, da.name = some n → n ≠ "" →
      da.values ≠ [] → validXPathName n = true ∧
        ∀ v ∈ da.values, strHasChar v sqChar = false ∧ countAttrEq doc n v ≠ 0) :
    ∃ d, check_html spec (Except.ok doc) = Except.ok ⟨true, [], d⟩ := by
  obtain ⟨enf, hda⟩ := daScan_clean doc _ hdas
  have hid := idsScan_clean doc _ hids
  have hsel := selScan_clean doc _ hsels
  refine ⟨Details.htmlD ⟨spec.requires.ids.length, [], []⟩
    ⟨spec.requires.selectors.length, [], (selScan doc spec.requires.selectors).2⟩
    ⟨enf, []⟩, ?_⟩
  simp only [check_html, hid, hda]
  rw [hsel]
  rfl

/-- Witness for C1 at a concrete spec and document exercising all
three groups plus an unsupported selector and a skipped entry. -/
theorem c1_witness :
    ∃ d, check_html specW (Except.ok docW) = Except.ok ⟨true, [], d⟩ :=
  c1_satisfied_spec_passes specW docW (by decide) (by decide) (by decide)

/-- Counterexample to C1 as stated: a required id holding a single
quote occurs exactly once in the document, no selector and no data
attribute is required, yet check_html does not return a passing
CheckResult: the interpolated XPath query raises instead. -/
theorem c1_counterexample :
    specQ.requires.ids = [idq] ∧
    countAttrEq docQ ("id") idq = 1 ∧
    specQ.requires.selectors = [] ∧
    specQ.requires.dataAttributes = [] ∧
    check_html specQ (Except.ok docQ) = Except.error ("Invalid expression") := by
  refine ⟨rfl, by decide, rfl, rfl, by decide⟩

/-- The viewport count is zero exactly when no element passes the
viewport meta test. -/
theorem countMetaViewport_eq_zero_iff (doc : Doc) :
    countMetaViewport doc = 0 ↔ anyViewportMeta doc = false := by
  simp [countMetaViewport, anyViewportMeta, List.length_eq_zero, List.filter_eq_nil_iff,
    List.any_eq_false]

/-- Claim C8 (amended): a viewport selector in either quoting style is
recognized; it is met exactly when some meta element carries a name
attribute whose value compares case-insensitively equal to viewport,
and when unmet it is reported under the single-quoted spelling
regardless of the requested quoting style. -/
theorem c8_viewport_selector_semantics (doc : Doc) (sel : String)
    (h : pyStrip sel = viewportSingle ∨ pyStrip sel = viewportDouble) :
    check_html ⟨none, none, ⟨[], [sel], []⟩⟩ (Except.ok doc) =
      (if anyViewportMeta doc then
        Except.ok ⟨true, [], Details.htmlD ⟨0, [], []⟩ ⟨1, [], []⟩ ⟨[], []⟩⟩
      else
        Except.ok ⟨false, [("Missing required selector(s): ") ++ viewportSingle],
          Details.htmlD ⟨0, [], []⟩ ⟨1, [viewportSingle], []⟩ ⟨[], []⟩⟩) := by
  have hsel : selScan doc [sel] =
      (if countMetaViewport doc = 0 then [viewportSingle] else [], []) := by
    rcases h with h | h
    · simp only [selScan, h]
      rw [if_neg (by decide), if_neg (by decide), if_pos (Or.inl trivial)]
    · simp only [selScan, h]
      rw [if_neg (by decide), if_neg (by decide), if_pos (Or.inr trivial)]
  by_cases hz : countMetaViewport doc = 0
  · have ha : anyViewportMeta doc = false := (countMetaViewport_eq_zero_iff doc).mp hz
    rw [ha]
    simp only [check_html, hsel, if_pos hz]
    rfl
  · have ha : anyViewportMeta doc = true := by
      rcases Bool.eq_false_or_eq_true (anyViewportMeta doc) with ht | hf
      · exact ht
      · exact absurd ((countMetaViewport_eq_zero_iff doc).mpr hf) hz
    rw [ha]
    simp only [check_html, hsel, if_neg hz]
    rfl

/-- Witness for C8 at a meta element with an uppercase name value. -/
theorem c8_witness :
    check_html ⟨none, none, ⟨[], [viewportSingle], []⟩⟩ (Except.ok docV8) =
      Except.ok ⟨true, [], Details.htmlD ⟨0, [], []⟩ ⟨1, [], []⟩ ⟨[], []⟩⟩ :=
  c8_viewport_selector_semantics docV8 viewportSingle (Or.inl (by decide))

/-- Counterexample to C8 as stated: a non-meta element carrying a name
attribute with value viewport does not satisfy the selector; the code
requires a meta element, so it reports the selector missing. -/
theorem c8_counterexample :
    anyNameViewport docV = true ∧
    check_html ⟨none, none, ⟨[], [viewportSingle], []⟩⟩ (Except.ok docV) =
      Except.ok ⟨false, [("Missing required selector(s): ") ++ viewportSingle],
        Details.htmlD ⟨0, [], []⟩ ⟨1, [viewportSingle], []⟩ ⟨[], []⟩⟩ := by
  refine ⟨by decide, by decide⟩

/-- Skipped data-attribute entries are invisible to the scan. -/
theorem daScan_skip (doc : Doc) (pre post : List DataAttrEntry) (da : DataAttrEntry)
    (h : da.name = none ∨ da.name = some ("") ∨ da.values = []) :
    daScan doc (pre ++ da :: post) = daScan doc (pre ++ post) := by
  induction pre with
  | nil =>
    simp only [List.nil_append]
    rcases h with h | h | h
    · simp only [daScan, h]
    · simp only [daScan, h]
      rw [if_pos (Or.inl trivial)]
    · cases hname : da.name with
      | none => simp only [daScan, hname]
      | some n =>
        simp only [daScan, hname]
        rw [if_pos (Or.inr h)]
  | cons a pre ih =>
    have ih2 : daScan doc (pre.append (da :: post)) = daScan doc (pre.append post) := ih
    simp only [List.cons_append, daScan]
    rw [ih2]

/-- Claim C9: a data-attribute entry whose name is absent or empty, or
whose values list is empty, is neither enforced nor reported: the
whole check_html result is identical to running it without the entry,
so the entry contributes to no error line and to neither the enforced
nor the missing detail list. -/
theorem c9_skipped_entry_no_op (abi cid : Option String) (ids sels : List String)
    (pre post : List DataAttrEntry) (da : DataAttrEntry)
    (h : da.name = none ∨ da.name = some ("") ∨ da.values = [])
    (parsed : Except String Doc) :
    check_html ⟨abi, cid, ⟨ids, sels, pre ++ da :: post⟩⟩ parsed =
      check_html ⟨abi, cid, ⟨ids, sels, pre ++ post⟩⟩ parsed := by
  cases parsed with
  | error e => rfl
  | ok doc =>
    simp only [check_html]
    rw [daScan_skip doc pre post da h]

/-- Witness for C9 at a concrete entry with an absent name. -/
theorem c9_witness :
    check_html ⟨some supportedAbi, none, ⟨[], [], [daNone]⟩⟩ (Except.ok docW) =
      check_html ⟨some supportedAbi, none, ⟨[], [], []⟩⟩ (Except.ok docW) :=
  c9_skipped_entry_no_op (some supportedAbi) none [] [] [] [] daNone (Or.inl rfl)
    (Except.ok docW)

end SFWA
